import Mathlib

/-!
Shallow embedding of the sih-2025-jharkhand-tourism backend.

The auth controller (`src/controllers/auth.controller.ts`), the guides
controller (`src/controllers/guides.controller.ts`) and the guide model
(`src/models/guides/Guide.model.ts`) are embedded from their source.
Collaborators whose source is not in the repository snapshot
(`User.model.ts`, `response.utils.ts`, `auth.middleware.ts`) are modelled
from the specification, each marked `Modelled from the spec:` on its
doc comment.

JavaScript truthiness on request-body fields is modelled explicitly:
an absent field is `none`, and the `if (x)` guards of the source are the
`truthy`/`truthyNum` predicates below (empty string and the number 0 are
falsy in JavaScript).

Dates are modelled as natural numbers supplied by the caller (`now`
parameters); database-generated identifiers are likewise parameters.
-/

namespace Tourism

/-- Modelled from the spec: the uniform response envelope
`{success, message, errors?}` produced by `sendError`/`sendSuccess` in
`response.utils.ts` (not in the snapshot), together with the HTTP status
code and the `data` payload of a success response (spec section 7). -/
structure FieldError where
  field : String
  message : String
deriving DecidableEq, Repr

structure ApiResponse (α : Type) where
  status : Nat
  success : Bool
  message : String
  errors : List FieldError
  data : Option α
deriving DecidableEq, Repr

/-- Modelled from the spec: `sendError(res, message, status, errors?)` of
`response.utils.ts` — a failure envelope with no data payload. -/
def sendError (message : String) (status : Nat) (errors : List FieldError) :
    ApiResponse α :=
  { status := status, success := false, message := message,
    errors := errors, data := none }

/-- Modelled from the spec: `sendSuccess(res, data, status, message)` of
`response.utils.ts` — a success envelope carrying the data payload. -/
def sendSuccess (data : α) (status : Nat) (message : String) :
    ApiResponse α :=
  { status := status, success := true, message := message,
    errors := [], data := some data }

/-- JavaScript truthiness of an optional string field of a JSON request
body: absent and the empty string are falsy. -/
def truthy : Option String → Bool
  | none => false
  | some s => !(s == "")

/-- JavaScript truthiness of an optional numeric field of a JSON request
body: absent and 0 are falsy. -/
def truthyNum : Option Nat → Bool
  | none => false
  | some n => !(n == 0)

/-- Modelled from the spec: the User record of `User.model.ts` (not in
the snapshot) — identifier, unique email, bcrypt password hash
(`select: false` by default), display name, role, active flag defaulting
to true, nullable last-login and timestamps (spec section 3). -/
structure User where
  id : String
  email : String
  password : String
  name : String
  role : String
  isActive : Bool
  lastLogin : Option Nat
  createdAt : Nat
  updatedAt : Nat
deriving DecidableEq, Repr

/-- Modelled from the spec: the Password Hasher — a one-way salted hash
whose verify succeeds exactly on the hash of the same plaintext (spec
section 2). Modelled as an injective tagging so that
`comparePassword p h = true ↔ h = hashPassword p`. -/
def hashPassword (plain : String) : String :=
  "bcrypt$" ++ plain

/-- Modelled from the spec: `user.comparePassword(plain)` of
`User.model.ts`, a constant-time bcrypt compare of the plaintext against
the stored hash. -/
def comparePassword (plain stored : String) : Bool :=
  stored == hashPassword plain

/-- Modelled from the spec: the sanitized user representation returned by
`toUserResponse` of `User.model.ts` —
`{id, email, name, role, isActive, createdAt, lastLogin}`; the password
hash is never included (spec section 6). -/
structure UserResponse where
  id : String
  email : String
  name : String
  role : String
  isActive : Bool
  createdAt : Nat
  lastLogin : Option Nat
deriving DecidableEq, Repr

def toUserResponse (u : User) : UserResponse :=
  { id := u.id, email := u.email, name := u.name, role := u.role,
    isActive := u.isActive, createdAt := u.createdAt,
    lastLogin := u.lastLogin }

/-- Modelled from the spec: the Session Token issued by `generateToken`
of `auth.middleware.ts` — a signed credential encoding the user
identifier and role (spec section 4.5). The signature and expiry are not
needed by any claim; the token is modelled as the signed payload. -/
structure SessionToken where
  userId : String
  role : String
deriving DecidableEq, Repr

def generateToken (userId role : String) : SessionToken :=
  { userId := userId, role := role }

/-- Modelled from the spec: the verify half of the Token Issuer — decodes
a token back to `(userId, role)` (spec section 4.5). -/
def verifyToken (t : SessionToken) : Option (String × String) :=
  some (t.userId, t.role)

/-- Modelled from the spec: `UserModel.findByEmail(email)` of
`User.model.ts` — look up the user by email with the password hash
included (also models the `UserModel.findOne({ email })` pre-check of
`register`, which performs the same search without the hash field). -/
def findByEmail (db : List User) (email : String) : Option User :=
  db.find? (fun u => u.email == email)

/-- Modelled from the spec: `UserModel.findById(userId)` of
`User.model.ts`, used by `getAuthenticatedUser`. -/
def findById (db : List User) (userId : String) : Option User :=
  db.find? (fun u => u.id == userId)

/-- Replace the first element satisfying `p` by `v` (the store updates
the single document matching the predicate). -/
def replaceFirstBy (p : α → Bool) (v : α) : List α → List α
  | [] => []
  | x :: xs => if p x then v :: xs else x :: replaceFirstBy p v xs

/-- Modelled from the spec: `user.save()` persisting a fetched-and-
mutated document back to the Credential Store — the document with the
user's identifier is overwritten. -/
def saveById (db : List User) (u : User) : List User :=
  replaceFirstBy (fun w => w.id == u.id) u db

/-- `role || 'customer'` of `register` (JavaScript `||` on a possibly
absent string). -/
def roleOrCustomer : Option String → String
  | none => "customer"
  | some s => if s == "" then "customer" else s

/-- The authentication payload `{ user, token }` returned by `register`
and `login`. -/
structure AuthData where
  user : UserResponse
  token : SessionToken
deriving DecidableEq, Repr

/-- `register` of `auth.controller.ts`. Inputs are a validated
`RegisterDTO` (the validation middleware rejects malformed bodies before
the controller runs, so the Mongoose `ValidationError` path is
unreachable in scope). `race` is the list of users inserted by
concurrent requests between the `findOne` pre-check and `user.save()`;
the storage-level unique index on email raises the duplicate-key error
(code 11000) when the insert-time state already holds the email, which
the controller maps to the same 409 response as the pre-check.
`newId` is the store-assigned identifier and `now` the creation time. -/
def register (db race : List User) (email password name : String)
    (role : Option String) (now : Nat) (newId : String) :
    List User × ApiResponse AuthData :=
  match findByEmail db email with
  | some _ => (db ++ race, sendError "Email already registered" 409 [])
  | none =>
    let dbNow := db ++ race
    if dbNow.any (fun u => u.email == email) then
      (dbNow, sendError "Email already registered" 409 [])
    else
      let u : User :=
        { id := newId, email := email, password := hashPassword password,
          name := name, role := roleOrCustomer role, isActive := true,
          lastLogin := none, createdAt := now, updatedAt := now }
      (dbNow ++ [u],
       sendSuccess
         { user := toUserResponse u, token := generateToken u.id u.role }
         201 "Registration successful")

/-- `login` of `auth.controller.ts`: find by email with hash, check the
active flag, bcrypt-compare, persist the last-login timestamp, then
issue the token. `saveOk` models whether the `user.save()` persisting
`lastLogin` succeeds; when it rejects, the surrounding catch converts
the failure to the generic 500 response. -/
def login (db : List User) (email password : String) (now : Nat)
    (saveOk : Bool) : List User × ApiResponse AuthData :=
  match findByEmail db email with
  | none => (db, sendError "Invalid credentials" 401 [])
  | some user =>
    if !user.isActive then
      (db, sendError "Account is deactivated" 403 [])
    else if !(comparePassword password user.password) then
      (db, sendError "Invalid credentials" 401 [])
    else
      let user' := { user with lastLogin := some now, updatedAt := now }
      if saveOk then
        (saveById db user',
         sendSuccess
           { user := toUserResponse user',
             token := generateToken user'.id user'.role }
           200 "Login successful")
      else (db, sendError "Login failed" 500 [])

/-- `getProfile` of `auth.controller.ts`: fetch the authenticated user by
identifier (the auth middleware has already verified the token and
attached `userId`), 404 if absent, 403 if deactivated, else the
sanitized representation. -/
def getProfile (db : List User) (userId : String) :
    ApiResponse UserResponse :=
  match findById db userId with
  | none => sendError "User not found" 404 []
  | some user =>
    if !user.isActive then sendError "Account is deactivated" 403 []
    else sendSuccess (toUserResponse user) 200 ""

/-- `updateProfile` of `auth.controller.ts`: fetch the authenticated user
with the hash included, overwrite the name if a truthy one is supplied,
and only when both `currentPassword` and `newPassword` are truthy verify
the current password (mismatch aborts with 400 before any save, so
nothing — including a supplied name — is persisted) and re-hash the new
one; finally persist and return the sanitized user. -/
def updateProfile (db : List User) (userId : String)
    (name currentPassword newPassword : Option String) (now : Nat) :
    List User × ApiResponse UserResponse :=
  match findById db userId with
  | none => (db, sendError "User not found" 404 [])
  | some user0 =>
    let user1 :=
      if truthy name then { user0 with name := name.getD user0.name }
      else user0
    if truthy newPassword && truthy currentPassword then
      if comparePassword (currentPassword.getD "") user1.password then
        let user2 :=
          { user1 with password := hashPassword (newPassword.getD ""),
                       updatedAt := now }
        (saveById db user2,
         sendSuccess (toUserResponse user2) 200
           "Profile updated successfully")
      else (db, sendError "Current password is incorrect" 400 [])
    else
      let user2 := { user1 with updatedAt := now }
      (saveById db user2,
       sendSuccess (toUserResponse user2) 200
         "Profile updated successfully")

/-- `GuideLocation` of `Guide.model.ts` (district + state). -/
structure GuideLocation where
  district : String
  state : String
deriving DecidableEq, Repr

/-- The pricing object as it arrives in a JSON request body: each numeric
rate key may be absent. (`GuidePricing` of `Guide.model.ts` declares
`halfDay` and `fullDay` required at the type level, but `req.body` is
cast unchecked, so the runtime object may omit any key.) -/
structure PricingInput where
  halfDay : Option Nat
  fullDay : Option Nat
  multiDay : Option Nat
  workshop : Option Nat
deriving DecidableEq, Repr

/-- The guide payload fields (`CreateGuideInput` of `Guide.model.ts`,
i.e. `Guide` minus `_id`/`createdAt`/`updatedAt`), at their runtime JSON
shape: any key may be absent in the request body. -/
structure GuideFields where
  name : Option String
  bio : Option String
  specializations : Option (List String)
  languages : Option (List String)
  experience : Option String
  location : Option GuideLocation
  pricing : Option PricingInput
  certifications : Option (List String)
  availability : Option String
deriving DecidableEq, Repr

/-- `Guide` of `Guide.model.ts` as built by `createGuide`:
`{ _id: generateId(), ...input, createdAt: now, updatedAt: now }`. -/
structure Guide where
  _id : String
  fields : GuideFields
  createdAt : Nat
  updatedAt : Nat
deriving DecidableEq, Repr

/-- `UpdateGuideInput` of `Guide.model.ts` at its runtime shape: the
payload fields, plus any stray `_id`/`createdAt`/`updatedAt` keys the
client may have put in the body (present keys are spread like any
other and must be overridden by `updateGuide`). -/
structure UpdateGuideInput where
  fields : GuideFields
  _id : Option String
  createdAt : Option Nat
  updatedAt : Option Nat
deriving DecidableEq, Repr

/-- Per-key JavaScript object spread `{...old, ...upd}`: a key present in
`upd` overrides, an absent one keeps the old value (JSON bodies carry no
`undefined` values, so key presence is the only case split). -/
def mergeField (upd old : Option α) : Option α :=
  match upd with
  | some v => some v
  | none => old

def mergeFields (old upd : GuideFields) : GuideFields :=
  { name := mergeField upd.name old.name,
    bio := mergeField upd.bio old.bio,
    specializations := mergeField upd.specializations old.specializations,
    languages := mergeField upd.languages old.languages,
    experience := mergeField upd.experience old.experience,
    location := mergeField upd.location old.location,
    pricing := mergeField upd.pricing old.pricing,
    certifications := mergeField upd.certifications old.certifications,
    availability := mergeField upd.availability old.availability }

/-- `createGuide` of `guides.controller.ts`: collect field errors for a
falsy `name`, `bio` or `pricing?.fullDay` (JavaScript `!x`, so an absent
pricing object, an absent rate and a 0 rate all fail the check), reject
with 400 when any, else append `{ _id, ...input, createdAt, updatedAt }`
to the store. `newId` models the `generateId()` result of
`response.utils.ts`. -/
def createGuide (store : List Guide) (input : GuideFields) (now : Nat)
    (newId : String) : List Guide × ApiResponse Guide :=
  let errors :=
    (if !(truthy input.name) then
      [{ field := "name", message := "Name is required" }] else []) ++
    (if !(truthy input.bio) then
      [{ field := "bio", message := "Bio is required" }] else []) ++
    (if !(truthyNum (input.pricing.bind (fun p => p.fullDay))) then
      [{ field := "pricing.fullDay",
         message := "Full day pricing is required" }] else [])
  if errors.length > 0 then
    (store, sendError "Validation failed" 400 errors)
  else
    let newGuide : Guide :=
      { _id := newId, fields := input, createdAt := now, updatedAt := now }
    (store ++ [newGuide],
     sendSuccess newGuide 201 "Guide profile created successfully")

/-- `updateGuide` of `guides.controller.ts`: find the guide by `_id`
(404 if absent), then replace it by
`{...old, ...updates, _id: old._id, createdAt: old.createdAt,
updatedAt: new Date()}` — the explicit overrides after the spread keep
`_id` and `createdAt` even when the payload carries those keys. -/
def updateGuide (store : List Guide) (id : String)
    (updates : UpdateGuideInput) (now : Nat) :
    List Guide × ApiResponse Guide :=
  match store.find? (fun g => g._id == id) with
  | none => (store, sendError "Guide not found" 404 [])
  | some old =>
    let updatedGuide : Guide :=
      { _id := old._id,
        fields := mergeFields old.fields updates.fields,
        createdAt := old.createdAt,
        updatedAt := now }
    (replaceFirstBy (fun g => g._id == id) updatedGuide store,
     sendSuccess updatedGuide 200 "Guide profile updated successfully")

/-! ## Helper lemmas -/

/-- Replacing the first element matching `p` by a `g`-equivalent value
leaves the `g`-image of the list unchanged. -/
lemma map_replaceFirstBy_of_find? {α β : Type} (g : α → β) (p : α → Bool)
    (v a : α) (l : List α) (hfind : l.find? p = some a) (hg : g v = g a) :
    (replaceFirstBy p v l).map g = l.map g := by
  induction l with
  | nil => simp at hfind
  | cons x xs ih =>
    by_cases hx : p x = true
    · rw [List.find?_cons_of_pos _ hx] at hfind
      obtain rfl : x = a := by exact Option.some.inj hfind
      simp [replaceFirstBy, hx, hg]
    · rw [List.find?_cons_of_neg _ hx] at hfind
      simp [replaceFirstBy, hx, ih hfind]

/-- The projection of a user that `login` observes: email (lookup),
password hash (compare) and active flag. -/
def loginKey (u : User) : String × String × Bool :=
  (u.email, u.password, u.isActive)

lemma findByEmail_congr (l₁ l₂ : List User) (e : String)
    (h : l₁.map loginKey = l₂.map loginKey) :
    (findByEmail l₁ e).map loginKey = (findByEmail l₂ e).map loginKey := by
  induction l₁ generalizing l₂ with
  | nil =>
    cases l₂ with
    | nil => rfl
    | cons y ys => simp at h
  | cons x xs ih =>
    cases l₂ with
    | nil => simp at h
    | cons y ys =>
      simp only [List.map_cons, List.cons.injEq] at h
      obtain ⟨hxy, hrest⟩ := h
      have hemail : x.email = y.email := congrArg Prod.fst hxy
      unfold findByEmail
      rw [List.find?_cons, List.find?_cons, hemail]
      cases hye : (y.email == e) with
      | true => simpa using hxy
      | false => exact ih ys hrest

/-- The status of a `login` response depends on the database only through
the `loginKey` image of its records. -/
lemma login_status_congr (l₁ l₂ : List User) (e p : String) (n₁ n₂ : Nat)
    (ok : Bool) (h : l₁.map loginKey = l₂.map loginKey) :
    ((login l₁ e p n₁ ok).2).status = ((login l₂ e p n₂ ok).2).status := by
  have hf := findByEmail_congr l₁ l₂ e h
  unfold login
  cases h₁ : findByEmail l₁ e with
  | none =>
    rw [h₁] at hf
    cases h₂ : findByEmail l₂ e with
    | none => rfl
    | some u => rw [h₂] at hf; simp at hf
  | some u₁ =>
    rw [h₁] at hf
    cases h₂ : findByEmail l₂ e with
    | none => rw [h₂] at hf; simp at hf
    | some u₂ =>
      rw [h₂] at hf
      have hk : loginKey u₁ = loginKey u₂ := by simpa using hf
      have hpw : u₁.password = u₂.password := congrArg (fun t => t.2.1) hk
      have ha : u₁.isActive = u₂.isActive := congrArg (fun t => t.2.2) hk
      by_cases hact : u₁.isActive = true <;>
        by_cases hcp : comparePassword p u₁.password = true <;>
          cases ok <;>
            simp [hact, hcp, ← ha, ← hpw, sendError, sendSuccess]

/-- `register` on a fresh email with no concurrent insert appends exactly
the new user record and reports 201. -/
lemma register_fresh (db : List User) (e p nm : String)
    (role : Option String) (now : Nat) (newId : String)
    (hpre : findByEmail db e = none) :
    register db [] e p nm role now newId =
      (db ++ [{ id := newId, email := e, password := hashPassword p,
                name := nm, role := roleOrCustomer role, isActive := true,
                lastLogin := none, createdAt := now, updatedAt := now }],
       sendSuccess
         { user := toUserResponse
             { id := newId, email := e, password := hashPassword p,
               name := nm, role := roleOrCustomer role, isActive := true,
               lastLogin := none, createdAt := now, updatedAt := now },
           token := generateToken newId (roleOrCustomer role) }
         201 "Registration successful") := by
  have hany : db.any (fun u => u.email == e) = false := by
    have h := List.find?_eq_none.mp hpre
    rw [List.any_eq_false]
    intro x hx
    simpa using h x hx
  unfold register
  rw [hpre]
  simp [hany, generateToken, -List.any_eq_false, -List.any_eq_true]

/-- `login` for an existing, active user with a matching password and a
successful last-login save returns the 200 success with the fresh
token. -/
lemma login_found_active_match (db : List User) (e p : String) (now : Nat)
    (u : User) (hfind : findByEmail db e = some u)
    (hact : u.isActive = true)
    (hpw : comparePassword p u.password = true) :
    login db e p now true =
      (saveById db { u with lastLogin := some now, updatedAt := now },
       sendSuccess
         { user := toUserResponse { u with lastLogin := some now,
                                           updatedAt := now },
           token := generateToken u.id u.role }
         200 "Login successful") := by
  unfold login
  rw [hfind]
  simp [hact, hpw]

/-! ## Claims -/

/-- C1: the login failure responses for a non-existent email and for an
existing active user with a non-matching password are the identical
401 "Invalid credentials" envelope, so error divergence cannot be used
for user enumeration. -/
theorem login_enumeration_resistant
    (db₁ : List User) (e₁ p₁ : String) (n₁ : Nat) (ok₁ : Bool)
    (db₂ : List User) (e₂ p₂ : String) (n₂ : Nat) (ok₂ : Bool) (u : User)
    (h₁ : findByEmail db₁ e₁ = none)
    (h₂ : findByEmail db₂ e₂ = some u)
    (hact : u.isActive = true)
    (hpw : comparePassword p₂ u.password = false) :
    (login db₁ e₁ p₁ n₁ ok₁).2 = sendError "Invalid credentials" 401 []
    ∧ (login db₂ e₂ p₂ n₂ ok₂).2 = sendError "Invalid credentials" 401 []
    ∧ (login db₁ e₁ p₁ n₁ ok₁).2 = (login db₂ e₂ p₂ n₂ ok₂).2 := by
  have hA : (login db₁ e₁ p₁ n₁ ok₁).2
      = sendError "Invalid credentials" 401 [] := by
    unfold login; rw [h₁]
  have hB : (login db₂ e₂ p₂ n₂ ok₂).2
      = sendError "Invalid credentials" 401 [] := by
    unfold login; rw [h₂]; simp [hact, hpw]
  exact ⟨hA, hB, hA.trans hB.symm⟩

def userC1 : User :=
  { id := "u1", email := "a@b.com", password := hashPassword "right",
    name := "A", role := "customer", isActive := true, lastLogin := none,
    createdAt := 0, updatedAt := 0 }

/-- C1 witness at concrete inputs: empty store vs a store holding
`userC1` queried with a wrong password. -/
theorem login_enumeration_resistant_witness :
    (login [] "x@y.com" "pw" 1 true).2 = sendError "Invalid credentials" 401 []
    ∧ (login [userC1] "a@b.com" "wrong" 2 true).2
        = sendError "Invalid credentials" 401 []
    ∧ (login [] "x@y.com" "pw" 1 true).2
        = (login [userC1] "a@b.com" "wrong" 2 true).2 :=
  login_enumeration_resistant [] "x@y.com" "pw" 1 true
    [userC1] "a@b.com" "wrong" 2 true userC1
    (by decide) (by decide) (by decide) (by decide)

/-- C2: whenever a user with the requested email is already stored at
pre-check time or appears (via a concurrent insert) by insert time, the
storage-level uniqueness violation and the pre-check alike map to the
409 "Email already registered" error and no new record is inserted. -/
theorem register_duplicate_conflict
    (db race : List User) (e p nm : String) (role : Option String)
    (now : Nat) (newId : String)
    (hdup : (db ++ race).any (fun u => u.email == e) = true) :
    (register db race e p nm role now newId).2
      = sendError "Email already registered" 409 []
    ∧ (register db race e p nm role now newId).1 = db ++ race := by
  unfold register
  cases hfind : findByEmail db e with
  | some u => exact ⟨rfl, rfl⟩
  | none => simp [hdup]

def userC2 : User :=
  { id := "u2", email := "dup@x.com", password := hashPassword "pw2",
    name := "B", role := "customer", isActive := true, lastLogin := none,
    createdAt := 0, updatedAt := 0 }

/-- C2 witness at a concrete input exercising the race path: the
pre-check sees an empty store but a concurrent insert of `userC2` lands
before the save. -/
theorem register_duplicate_conflict_witness :
    (register [] [userC2] "dup@x.com" "pw" "N" none 3 "id9").2
      = sendError "Email already registered" 409 []
    ∧ (register [] [userC2] "dup@x.com" "pw" "N" none 3 "id9").1
        = [] ++ [userC2] :=
  register_duplicate_conflict [] [userC2] "dup@x.com" "pw" "N" none 3 "id9"
    (by decide)

/-- C6: for a stored user whose active flag is false, login fails with
the 403 "Account is deactivated" error whatever password is supplied
(the active check runs after the existence check and before the password
compare), and getProfile for that user's identifier fails with the same
403 error. -/
theorem login_getProfile_deactivated
    (db : List User) (e p : String) (now : Nat) (ok : Bool) (u : User)
    (hfind : findByEmail db e = some u)
    (hinact : u.isActive = false)
    (hid : findById db u.id = some u) :
    (login db e p now ok).2 = sendError "Account is deactivated" 403 []
    ∧ getProfile db u.id = sendError "Account is deactivated" 403 [] := by
  constructor
  · unfold login; rw [hfind]; simp [hinact]
  · unfold getProfile; rw [hid]; simp [hinact]

def userC6 : User :=
  { id := "u6", email := "off@x.com", password := hashPassword "pw6",
    name := "F", role := "customer", isActive := false, lastLogin := none,
    createdAt := 0, updatedAt := 0 }

/-- C6 witness at a concrete input: a deactivated user queried with its
correct password. -/
theorem login_getProfile_deactivated_witness :
    (login [userC6] "off@x.com" "pw6" 4 true).2
      = sendError "Account is deactivated" 403 []
    ∧ getProfile [userC6] "u6" = sendError "Account is deactivated" 403 [] := by
  have h := login_getProfile_deactivated [userC6] "off@x.com" "pw6" 4 true
    userC6 (by decide) (by decide) (by decide)
  exact h

def userC7 : User :=
  { id := "u7", email := "c@d.com", password := hashPassword "pw7",
    name := "C", role := "customer", isActive := true, lastLogin := none,
    createdAt := 0, updatedAt := 0 }

/-- C7 counterexample: for an existing, active user with a matching
password, when the save persisting the last-login timestamp fails, the
handler's catch produces the 500 "Login failed" error — the login does
not still succeed with status 200 as claimed. -/
theorem login_save_failure_not_success :
    findByEmail [userC7] "c@d.com" = some userC7
    ∧ userC7.isActive = true
    ∧ comparePassword "pw7" userC7.password = true
    ∧ (login [userC7] "c@d.com" "pw7" 5 false).2
        = sendError "Login failed" 500 []
    ∧ ¬((login [userC7] "c@d.com" "pw7" 5 false).2.status = 200) := by
  decide

/-- C7 amended: for an existing, active user with a matching password,
login updates the last-login timestamp and — when that save succeeds —
returns 200 with the sanitized user and a freshly issued token; when the
save fails, the handler reports the 500 "Login failed" error instead of
succeeding. -/
theorem login_success_needs_lastLogin_save
    (db : List User) (e p : String) (now : Nat) (u : User)
    (hfind : findByEmail db e = some u)
    (hact : u.isActive = true)
    (hpw : comparePassword p u.password = true) :
    (login db e p now true).2
      = sendSuccess
          { user := toUserResponse { u with lastLogin := some now,
                                            updatedAt := now },
            token := generateToken u.id u.role }
          200 "Login successful"
    ∧ (login db e p now true).1
        = saveById db { u with lastLogin := some now, updatedAt := now }
    ∧ (login db e p now false).2 = sendError "Login failed" 500 [] := by
  have h := login_found_active_match db e p now u hfind hact hpw
  refine ⟨congrArg Prod.snd h, congrArg Prod.fst h, ?_⟩
  unfold login
  rw [hfind]
  simp [hact, hpw]

/-- C7 amended-claim witness at a concrete input. -/
theorem login_success_needs_lastLogin_save_witness :
    (login [userC7] "c@d.com" "pw7" 6 true).2
      = sendSuccess
          { user := toUserResponse { userC7 with lastLogin := some 6,
                                                 updatedAt := 6 },
            token := generateToken userC7.id userC7.role }
          200 "Login successful"
    ∧ (login [userC7] "c@d.com" "pw7" 6 true).1
        = saveById [userC7] { userC7 with lastLogin := some 6,
                                          updatedAt := 6 }
    ∧ (login [userC7] "c@d.com" "pw7" 6 false).2
        = sendError "Login failed" 500 [] :=
  login_success_needs_lastLogin_save [userC7] "c@d.com" "pw7" 6 userC7
    (by decide) (by decide) (by decide)

/-- A saved user whose identifier matches the looked-up one and whose
`g`-image is unchanged leaves the `g`-image of the store unchanged. -/
lemma saveById_map_eq {β : Type} (g : User → β) (db : List User)
    (uid : String) (u₀ v : User)
    (hfind : db.find? (fun w => w.id == uid) = some u₀)
    (hvid : v.id = uid) (hg : g v = g u₀) :
    (saveById db v).map g = db.map g := by
  unfold saveById
  simp only [hvid]
  exact map_replaceFirstBy_of_find? g _ v u₀ db hfind hg

/-- C3: on a store without the email, register succeeds with 201 creating
the user under the fresh identifier, and a subsequent login with the
same email and password succeeds with 200, returns the sanitized user of
that identifier, and its token decodes to that identifier (and the
registered role). -/
theorem register_then_login_roundtrip
    (db : List User) (e p nm : String) (role : Option String)
    (now now₂ : Nat) (newId : String)
    (hpre : findByEmail db e = none) :
    (register db [] e p nm role now newId).2.status = 201
    ∧ ((register db [] e p nm role now newId).2.data.map
        (fun d => d.user.id)) = some newId
    ∧ ((login (register db [] e p nm role now newId).1 e p now₂ true).2).status
        = 200
    ∧ (((login (register db [] e p nm role now newId).1 e p now₂ true).2).data.map
        (fun d => d.user.id)) = some newId
    ∧ (((login (register db [] e p nm role now newId).1 e p now₂ true).2).data.map
        (fun d => verifyToken d.token))
        = some (some (newId, roleOrCustomer role)) := by
  have hreg := register_fresh db e p nm role now newId hpre
  rw [hreg]
  set u₀ : User :=
    { id := newId, email := e, password := hashPassword p, name := nm,
      role := roleOrCustomer role, isActive := true, lastLogin := none,
      createdAt := now, updatedAt := now } with hu₀
  have hfind : findByEmail (db ++ [u₀]) e = some u₀ := by
    unfold findByEmail
    rw [List.find?_append]
    have hnone : db.find? (fun u => u.email == e) = none := hpre
    rw [hnone]
    simp [hu₀]
  have hlog := login_found_active_match (db ++ [u₀]) e p now₂ u₀ hfind rfl
    (by simp [hu₀, comparePassword])
  rw [hlog]
  simp [sendSuccess, toUserResponse, generateToken, verifyToken, hu₀]

def userC3 : User :=
  { id := "u3", email := "r@l.com", password := hashPassword "pw3",
    name := "R", role := "customer", isActive := true, lastLogin := none,
    createdAt := 0, updatedAt := 0 }

/-- C3 witness at concrete inputs: register on a store holding an
unrelated user, then login with the registered credentials. -/
theorem register_then_login_roundtrip_witness :
    (register [userC3] [] "new@l.com" "secret" "N" none 10 "idN").2.status = 201
    ∧ ((register [userC3] [] "new@l.com" "secret" "N" none 10 "idN").2.data.map
        (fun d => d.user.id)) = some "idN"
    ∧ ((login (register [userC3] [] "new@l.com" "secret" "N" none 10 "idN").1
        "new@l.com" "secret" 11 true).2).status = 200
    ∧ (((login (register [userC3] [] "new@l.com" "secret" "N" none 10 "idN").1
        "new@l.com" "secret" 11 true).2).data.map (fun d => d.user.id))
        = some "idN"
    ∧ (((login (register [userC3] [] "new@l.com" "secret" "N" none 10 "idN").1
        "new@l.com" "secret" 11 true).2).data.map
        (fun d => verifyToken d.token))
        = some (some ("idN", roleOrCustomer none)) :=
  register_then_login_roundtrip [userC3] "new@l.com" "secret" "N" none 10 11
    "idN" (by decide)

/-- C4: an updateProfile request supplying exactly one of currentPassword
and newPassword leaves every stored password hash unchanged — the
password change is skipped, never partially applied — and the status of
any subsequent login (in particular one with the old password) is the
same as before the update. -/
theorem updateProfile_one_sided_password_noop
    (db : List User) (uid : String) (nm cp np : Option String) (now : Nat)
    (e p : String) (n₂ : Nat) (ok : Bool)
    (hx : (cp.isSome ∧ np = none) ∨ (cp = none ∧ np.isSome)) :
    ((updateProfile db uid nm cp np now).1).map User.password
      = db.map User.password
    ∧ ((login (updateProfile db uid nm cp np now).1 e p n₂ ok).2).status
        = ((login db e p n₂ ok).2).status := by
  have hguard : (truthy np && truthy cp) = false := by
    rcases hx with ⟨_, h₂⟩ | ⟨h₁, _⟩
    · subst h₂; simp [truthy]
    · subst h₁; simp [truthy]
  have hmain : ((updateProfile db uid nm cp np now).1).map loginKey
        = db.map loginKey
      ∧ ((updateProfile db uid nm cp np now).1).map User.password
        = db.map User.password := by
    cases hfind : findById db uid with
    | none =>
      have hstate : (updateProfile db uid nm cp np now).1 = db := by
        unfold updateProfile
        rw [hfind]
      rw [hstate]
      exact ⟨rfl, rfl⟩
    | some u₀ =>
      have hid : u₀.id = uid := by
        have h := List.find?_some hfind
        simpa using h
      by_cases htn : truthy nm = true
      · have hstate : (updateProfile db uid nm cp np now).1
            = saveById db
                { u₀ with name := nm.getD u₀.name, updatedAt := now } := by
          unfold updateProfile
          rw [hfind]
          simp [htn, hguard]
        rw [hstate]
        exact ⟨saveById_map_eq loginKey db uid u₀ _ hfind hid rfl,
               saveById_map_eq User.password db uid u₀ _ hfind hid rfl⟩
      · have hstate : (updateProfile db uid nm cp np now).1
            = saveById db { u₀ with updatedAt := now } := by
          unfold updateProfile
          rw [hfind]
          simp [htn, hguard]
        rw [hstate]
        exact ⟨saveById_map_eq loginKey db uid u₀ _ hfind hid rfl,
               saveById_map_eq User.password db uid u₀ _ hfind hid rfl⟩
  exact ⟨hmain.2, login_status_congr _ db e p n₂ n₂ ok hmain.1⟩

def userC4 : User :=
  { id := "u4", email := "w@x.com", password := hashPassword "oldpw",
    name := "D", role := "customer", isActive := true, lastLogin := none,
    createdAt := 0, updatedAt := 0 }

/-- C4 witness at a concrete input: newPassword without currentPassword;
the stored hash is untouched and login with the old password keeps its
(successful) status. -/
theorem updateProfile_one_sided_password_noop_witness :
    (((none : Option String).isSome ∧ (some "new" : Option String) = none)
      ∨ ((none : Option String) = none
          ∧ (some "new" : Option String).isSome))
    ∧ (((updateProfile [userC4] "u4" none none (some "new") 7).1).map
        User.password = [userC4].map User.password
      ∧ ((login (updateProfile [userC4] "u4" none none (some "new") 7).1
          "w@x.com" "oldpw" 8 true).2).status
          = ((login [userC4] "w@x.com" "oldpw" 8 true).2).status) :=
  ⟨Or.inr ⟨rfl, rfl⟩,
   updateProfile_one_sided_password_noop [userC4] "u4" none none
     (some "new") 7 "w@x.com" "oldpw" 8 true (Or.inr ⟨rfl, rfl⟩)⟩

/-- C5: an updateProfile request supplying both passwords where the
current one does not match the stored hash fails with the 400
"Current password is incorrect" error and persists nothing — the store,
including a name supplied in the same request, is unchanged. -/
theorem updateProfile_wrong_current_password
    (db : List User) (uid : String) (nm : Option String) (cpw npw : String)
    (now : Nat) (u₀ : User)
    (hfind : findById db uid = some u₀)
    (hcp : cpw ≠ "") (hnp : npw ≠ "")
    (hmm : comparePassword cpw u₀.password = false) :
    updateProfile db uid nm (some cpw) (some npw) now
      = (db, sendError "Current password is incorrect" 400 []) := by
  unfold updateProfile
  rw [hfind]
  have ht : (truthy (some npw) && truthy (some cpw)) = true := by
    simp [truthy, hcp, hnp]
  by_cases htn : truthy nm = true <;> simp [htn, ht, hmm]

def userC5 : User :=
  { id := "u5", email := "e5@x.com", password := hashPassword "realpw",
    name := "E", role := "customer", isActive := true, lastLogin := none,
    createdAt := 0, updatedAt := 0 }

/-- C5 witness at a concrete input: a wrong current password alongside a
name update; the response is the 400 error and the store (name included)
is unchanged. -/
theorem updateProfile_wrong_current_password_witness :
    comparePassword "bad" userC5.password = false
    ∧ updateProfile [userC5] "u5" (some "NewName") (some "bad")
        (some "nextpw") 9
        = ([userC5], sendError "Current password is incorrect" 400 []) :=
  ⟨by decide,
   updateProfile_wrong_current_password [userC5] "u5" (some "NewName")
     "bad" "nextpw" 9 userC5 (by decide) (by decide) (by decide)
     (by decide)⟩

def fieldsC8 : GuideFields :=
  { name := some "A", bio := some "B", specializations := some ["trek"],
    languages := some ["hi"], experience := some "5y",
    location := some { district := "Ranchi", state := "Jharkhand" },
    pricing := some { halfDay := none, fullDay := some 100,
                      multiDay := none, workshop := none },
    certifications := none, availability := some "available" }

/-- C8 counterexample: a createGuide payload whose pricing lacks the
half-day rate — with name and bio present and a nonzero full-day rate —
is accepted with 201 and the guide is appended to the store: the
required-field validation never checks `pricing.halfDay`, refuting the
claim that such a request fails with 400 and adds nothing. -/
theorem createGuide_missing_halfDay_accepted :
    fieldsC8.pricing.bind (fun pr => pr.halfDay) = none
    ∧ (createGuide [] fieldsC8 5 "g1").2.status = 201
    ∧ ¬((createGuide [] fieldsC8 5 "g1").2.status = 400)
    ∧ ¬((createGuide [] fieldsC8 5 "g1").1 = []) := by
  decide

/-- C8 amended: a createGuide request whose pricing lacks a (truthy)
full-day rate — the pricing object or its `fullDay` key absent — fails
with the 400 "Validation failed" error carrying the `pricing.fullDay`
field error, and no guide is added to the store; the half-day rate is
not among the required-field checks (only name, bio and the full-day
rate are). -/
theorem createGuide_missing_fullDay_rejected
    (store : List Guide) (input : GuideFields) (now : Nat) (newId : String)
    (hfd : input.pricing.bind (fun pr => pr.fullDay) = none) :
    (createGuide store input now newId).2.status = 400
    ∧ (createGuide store input now newId).2.success = false
    ∧ { field := "pricing.fullDay",
        message := "Full day pricing is required" }
        ∈ (createGuide store input now newId).2.errors
    ∧ (createGuide store input now newId).1 = store := by
  unfold createGuide
  by_cases h₁ : truthy input.name = true <;>
    by_cases h₂ : truthy input.bio = true <;>
      simp [h₁, h₂, hfd, truthyNum, sendError]

def fieldsC8b : GuideFields :=
  { name := some "A", bio := some "B", specializations := none,
    languages := none, experience := none, location := none,
    pricing := none, certifications := none, availability := none }

/-- C8 amended-claim witness at a concrete input with no pricing object
at all. -/
theorem createGuide_missing_fullDay_rejected_witness :
    fieldsC8b.pricing.bind (fun pr => pr.fullDay) = none
    ∧ ((createGuide [] fieldsC8b 6 "g2").2.status = 400
      ∧ (createGuide [] fieldsC8b 6 "g2").2.success = false
      ∧ { field := "pricing.fullDay",
          message := "Full day pricing is required" }
          ∈ (createGuide [] fieldsC8b 6 "g2").2.errors
      ∧ (createGuide [] fieldsC8b 6 "g2").1 = []) :=
  ⟨rfl, createGuide_missing_fullDay_rejected [] fieldsC8b 6 "g2" rfl⟩

/-- C9: a successful updateGuide never changes any guide's `_id` or
`createdAt` — the explicit overrides after the payload spread keep both,
even when the payload carries `_id` or `createdAt` keys — and reports
200. -/
theorem updateGuide_preserves_id_createdAt
    (store : List Guide) (id : String) (upd : UpdateGuideInput) (now : Nat)
    (old : Guide)
    (hfind : store.find? (fun g => g._id == id) = some old) :
    ((updateGuide store id upd now).1).map (fun g => (g._id, g.createdAt))
      = store.map (fun g => (g._id, g.createdAt))
    ∧ ((updateGuide store id upd now).2).status = 200 := by
  unfold updateGuide
  rw [hfind]
  exact ⟨map_replaceFirstBy_of_find? _ _ _ old store hfind rfl, rfl⟩

def guideC9 : Guide :=
  { _id := "g9",
    fields := { name := some "G", bio := some "B", specializations := none,
                languages := none, experience := none, location := none,
                pricing := some { halfDay := some 10, fullDay := some 20,
                                  multiDay := none, workshop := none },
                certifications := none, availability := some "available" },
    createdAt := 1, updatedAt := 1 }

def updC9 : UpdateGuideInput :=
  { fields := { name := some "G2", bio := none, specializations := none,
                languages := none, experience := none, location := none,
                pricing := none, certifications := none,
                availability := some "busy" },
    _id := some "EVIL", createdAt := some 999, updatedAt := some 999 }

/-- C9 witness at a concrete input whose payload carries stray `_id` and
`createdAt` keys. -/
theorem updateGuide_preserves_id_createdAt_witness :
    ((updateGuide [guideC9] "g9" updC9 2).1).map
        (fun g => (g._id, g.createdAt))
      = [guideC9].map (fun g => (g._id, g.createdAt))
    ∧ ((updateGuide [guideC9] "g9" updC9 2).2).status = 200 :=
  updateGuide_preserves_id_createdAt [guideC9] "g9" updC9 2 guideC9
    (by decide)

/-- C10: a createGuide request with truthy name and bio whose
`pricing.fullDay` equals 0 is rejected exactly like an absent rate —
JavaScript `!0` is truthy — with the 400 "Validation failed" error whose
single field error reports `pricing.fullDay`, and no guide is added. -/
theorem createGuide_zero_fullDay_rejected
    (store : List Guide) (input : GuideFields) (now : Nat) (newId : String)
    (pr : PricingInput)
    (hname : truthy input.name = true) (hbio : truthy input.bio = true)
    (hpr : input.pricing = some pr) (hfd : pr.fullDay = some 0) :
    (createGuide store input now newId).2
      = sendError "Validation failed" 400
          [{ field := "pricing.fullDay",
             message := "Full day pricing is required" }]
    ∧ (createGuide store input now newId).1 = store := by
  unfold createGuide
  simp [hname, hbio, hpr, hfd, truthyNum]

def fieldsC10 : GuideFields :=
  { name := some "N", bio := some "B", specializations := none,
    languages := none, experience := none, location := none,
    pricing := some { halfDay := some 50, fullDay := some 0,
                      multiDay := none, workshop := none },
    certifications := none, availability := none }

/-- C10 witness at a concrete input with a zero full-day rate. -/
theorem createGuide_zero_fullDay_rejected_witness :
    truthy fieldsC10.name = true
    ∧ truthy fieldsC10.bio = true
    ∧ ((createGuide [] fieldsC10 7 "g3").2
        = sendError "Validation failed" 400
            [{ field := "pricing.fullDay",
               message := "Full day pricing is required" }]
      ∧ (createGuide [] fieldsC10 7 "g3").1 = []) :=
  ⟨rfl, rfl,
   createGuide_zero_fullDay_rejected [] fieldsC10 7 "g3"
     { halfDay := some 50, fullDay := some 0, multiDay := none,
       workshop := none } rfl rfl rfl rfl⟩

end Tourism
